import Mathlib

/-!
Verification of the helix-term event dispatcher (`src/helix-term/src/application.rs`)
against its natural-language specification.

The Rust code is shallowly embedded: each `tokio::select!` arm, handler and
format computation of `Application` becomes an executable Lean definition,
with external collaborators (compositor, LSP transport, DAP client) passed in
as explicit data or function parameters.  Machine integers are modelled as
`Nat`/`Int`; `Instant`/`Duration` values as nanosecond counts.
-/

namespace Helix

/-! ## Event-loop source selection (`Application::event_loop`, the `tokio::select!`)

The loop body is a `tokio::select! { biased; ... }` with six arms, in this
textual order: terminal input (`reader.next()`), OS signals
(`self.signals.next()`), LSP incoming (`language_servers.incoming.next()`),
DAP events (`debugger_events.next()`), fire-and-forget job completions
(`jobs.futures.next()`), and must-await job completions
(`jobs.wait_futures.next()`).  With `biased`, tokio polls the arms in exactly
this order and dispatches the first one that is ready. -/

/-- The six event sources of the `select!`, in the textual order of the arms. -/
inductive Source
  | terminal
  | signal
  | lspIncoming
  | dapEvents
  | jobsFutures
  | jobsWaitFutures
deriving DecidableEq, Fintype, Repr

/-- Which sources are ready at the top of one loop iteration. -/
structure Readiness where
  terminal : Bool
  signal : Bool
  lspIncoming : Bool
  dapEvents : Bool
  jobsFutures : Bool
  jobsWaitFutures : Bool
deriving DecidableEq, Fintype, Repr

/-- Readiness of a single source. -/
def ready (r : Readiness) : Source → Bool
  | .terminal => r.terminal
  | .signal => r.signal
  | .lspIncoming => r.lspIncoming
  | .dapEvents => r.dapEvents
  | .jobsFutures => r.jobsFutures
  | .jobsWaitFutures => r.jobsWaitFutures

/-- Biased selection as performed by `tokio::select! { biased; ... }`: the arms
are polled in their textual order and the first ready one fires.  Returns
`none` when no source is ready (the real loop would keep blocking). -/
def biasedSelect (r : Readiness) : Option Source :=
  if r.terminal then some .terminal
  else if r.signal then some .signal
  else if r.lspIncoming then some .lspIncoming
  else if r.dapEvents then some .dapEvents
  else if r.jobsFutures then some .jobsFutures
  else if r.jobsWaitFutures then some .jobsWaitFutures
  else none

/-- Numeric priority rank of a source: the position of its arm in the
`select!`, lower rank dispatched first. -/
def priority : Source → Nat
  | .terminal => 0
  | .signal => 1
  | .lspIncoming => 2
  | .dapEvents => 3
  | .jobsFutures => 4
  | .jobsWaitFutures => 5

/-! ## LSP progress status formatting (`handle_language_server_message`,
`Notification::ProgressMessage` arm)

`parts : (Option title, Option message, Option percentage)` is matched by an
eight-arm `match` producing the status string via `format!`. -/

/-- `lsp::NumberOrString`, the type of progress tokens. -/
inductive NumberOrString
  | number (n : Int)
  | str (s : String)
deriving DecidableEq, Repr

/-- The `token_d : &dyn Display` binding: how a token renders into status text. -/
def tokenDisplay : NumberOrString → String
  | .number n => toString n
  | .str s => s

/-- The eight-arm `match parts` computing the progress status string.  Each arm
mirrors one `format!` call of the source, with `++` concatenation standing for
the format string. -/
def progressStatus (tok : NumberOrString) (title message : Option String)
    (percentage : Option Nat) : String :=
  match title, message, percentage with
  | some ti, some ms, some p =>
      "[" ++ tokenDisplay tok ++ "] " ++ toString p ++ "% " ++ ti ++ " - " ++ ms
  | some ti, none, some p =>
      "[" ++ tokenDisplay tok ++ "] " ++ toString p ++ "% " ++ ti
  | some ti, some ms, none =>
      "[" ++ tokenDisplay tok ++ "] " ++ ti ++ " - " ++ ms
  | none, some ms, some p =>
      "[" ++ tokenDisplay tok ++ "] " ++ toString p ++ "% " ++ ms
  | some ti, none, none => "[" ++ tokenDisplay tok ++ "] " ++ ti
  | none, some ms, none => "[" ++ tokenDisplay tok ++ "] " ++ ms
  | none, none, some p => "[" ++ tokenDisplay tok ++ "] " ++ toString p ++ "%"
  | none, none, none => "[" ++ tokenDisplay tok ++ "]"

/-! ## LSP render throttling (`Application::event_loop`, the LSP incoming arm)

```rust
let mut last_render = Instant::now();
let deadline = Duration::from_secs(1) / 60;
...
Some((id, call)) = self.editor.language_servers.incoming.next() => {
    self.handle_language_server_message(call, id).await;
    // limit render calls for fast language server messages
    let last = self.editor.language_servers.incoming.is_empty();
    if last || last_render.elapsed() > deadline {
        self.render();
        last_render = Instant::now();
    }
}
```

`handle_language_server_message` itself never calls `render`, so the guarded
call above is the only render on this path.  Time is in nanoseconds. -/

/-- `Duration::from_secs(1) / 60` in nanoseconds (Rust `Duration` division
truncates toward zero). -/
def deadline : Nat := 1000000000 / 60

/-- The loop state relevant to LSP render throttling: `last_render` (as
nanoseconds since some epoch) plus the accumulated times at which `render`
was called, most recent first. -/
structure LspArmState where
  lastRender : Nat
  renders : List Nat
deriving DecidableEq, Repr

/-- One execution of the LSP arm, after the message itself has been handled:
`isEmpty` is `language_servers.incoming.is_empty()` and `now` the current
instant, so `now - lastRender` is `last_render.elapsed()`. -/
def lspArm (s : LspArmState) (isEmpty : Bool) (now : Nat) : LspArmState :=
  if isEmpty || decide (deadline < now - s.lastRender) then
    { lastRender := now, renders := now :: s.renders }
  else s

/-- Executing the LSP arm over a sequence of `(is_empty, now)` observations. -/
def lspArmRun (s : LspArmState) : List (Bool × Nat) → LspArmState
  | [] => s
  | (e, t) :: evs => lspArmRun (lspArm s e t) evs

/-- A burst of queued messages, handled at the given instants: the incoming
queue is observed non-empty at every message except the last, where it has
drained. -/
def burstEvents : List Nat → List (Bool × Nat)
  | [] => []
  | [t] => [(true, t)]
  | t :: ts => (false, t) :: burstEvents ts

/-- The mid-burst observations of a still longer burst: the queue has not yet
drained at any of the given instants. -/
def burstMidEvents (times : List Nat) : List (Bool × Nat) :=
  times.map (fun t => (false, t))

/-! ## PublishDiagnostics translation (`handle_language_server_message`,
`Notification::PublishDiagnostics` arm)

Each wire diagnostic is pushed through `filter_map`: its start and end
positions are translated by `helix_lsp::util::lsp_pos_to_pos`, a fallible
mapping; a failed translation logs a warning and returns `None`, dropping only
that diagnostic.  The surviving batch is applied with `doc.set_diagnostics`. -/

/-- `lsp::Position`: a wire position (zero-based line and character). -/
structure LspPosition where
  line : Nat
  character : Nat
deriving DecidableEq, Repr

/-- `lsp::Range`; the source field `end` is spelled `endPos` here. -/
structure LspRange where
  start : LspPosition
  endPos : LspPosition
deriving DecidableEq, Repr

/-- `lsp::DiagnosticSeverity`. -/
inductive DiagnosticSeverity
  | error
  | warning
  | information
  | hint
deriving DecidableEq, Repr

/-- A wire diagnostic, with the fields the handler reads. -/
structure LspDiagnostic where
  range : LspRange
  severity : Option DiagnosticSeverity
  message : String
deriving DecidableEq, Repr

/-- `helix_core::diagnostic::Severity`. -/
inductive Severity
  | error
  | warning
  | info
  | hint
deriving DecidableEq, Repr

/-- `helix_core::diagnostic::Range` in internal text-position units. -/
structure Range where
  start : Nat
  endPos : Nat
deriving DecidableEq, Repr

/-- `helix_core::Diagnostic` as built by the handler. -/
structure Diagnostic where
  range : Range
  line : Nat
  message : String
  severity : Option Severity
deriving DecidableEq, Repr

/-- The severity mapping of the handler. -/
def severityFromLsp : DiagnosticSeverity → Severity
  | .error => .error
  | .warning => .warning
  | .information => .info
  | .hint => .hint

/-- The `filter_map` body: translate one wire diagnostic.  `lspPosToPos`
stands for `lsp_pos_to_pos(text, pos, offset_encoding)` with the document text
and the server offset encoding fixed; `none` is the out-of-bounds case (the
source logs a warning and drops the diagnostic). -/
def translateDiagnostic (lspPosToPos : LspPosition → Option Nat)
    (d : LspDiagnostic) : Option Diagnostic :=
  match lspPosToPos d.range.start with
  | none => none
  | some s =>
    match lspPosToPos d.range.endPos with
    | none => none
    | some e =>
      some { range := { start := s, endPos := e },
             line := d.range.start.line,
             message := d.message,
             severity := d.severity.map severityFromLsp }

/-- The whole batch: `params.diagnostics.into_iter().filter_map(..).collect()`. -/
def publishDiagnostics (lspPosToPos : LspPosition → Option Nat)
    (ds : List LspDiagnostic) : List Diagnostic :=
  ds.filterMap (translateDiagnostic lspPosToPos)

/-- An open document, with the fields the handlers read. -/
structure Doc where
  path : Option String
  languageServer : Option Nat
  diagnostics : List Diagnostic
deriving DecidableEq, Repr

/-- `doc.set_diagnostics(diagnostics)`. -/
def setDiagnostics (doc : Doc) (ds : List Diagnostic) : Doc :=
  { doc with diagnostics := ds }

/-- The `PublishDiagnostics` arm for a resolved open document. -/
def handlePublishDiagnostics (lspPosToPos : LspPosition → Option Nat)
    (doc : Doc) (ds : List LspDiagnostic) : Doc :=
  setDiagnostics doc (publishDiagnostics lspPosToPos ds)

/-- A concrete fallible position translation: lines below 5 are in bounds. -/
def demoLspPosToPos (p : LspPosition) : Option Nat :=
  if p.line < 5 then some (10 * p.line + p.character) else none

/-- A concrete batch of five diagnostics; the third has out-of-bounds
positions (line 7) under `demoLspPosToPos`. -/
def demoBatch : List LspDiagnostic :=
  [ { range := { start := ⟨0, 1⟩, endPos := ⟨0, 4⟩ },
      severity := some .error, message := "d1" },
    { range := { start := ⟨1, 0⟩, endPos := ⟨1, 2⟩ },
      severity := some .warning, message := "d2" },
    { range := { start := ⟨7, 0⟩, endPos := ⟨7, 3⟩ },
      severity := some .error, message := "bad" },
    { range := { start := ⟨2, 2⟩, endPos := ⟨2, 5⟩ },
      severity := none, message := "d3" },
    { range := { start := ⟨3, 0⟩, endPos := ⟨4, 0⟩ },
      severity := some .hint, message := "d4" } ]

/-- A concrete open document with no diagnostics yet. -/
def demoDoc : Doc :=
  { path := some "/tmp/a.rs", languageServer := some 0, diagnostics := [] }

/-! ## Terminal events, signals and job completions (render policy)

`handle_terminal_events` renders only when the compositor reports
`should_redraw` and the editor is not closing; `handle_signals` renders on
`SIGCONT` but not on `SIGTSTP`; the two job arms call `self.render()`
unconditionally after `handle_callback`. -/

/-- `crossterm::event::Event`, reduced to the distinction the handler makes. -/
inductive Event
  | resize (width height : Nat)
  | key
  | mouse
deriving DecidableEq, Repr

/-- Outcome of `handle_terminal_events`: the stream erroring or terminating
panics; otherwise the event is handled and render may or may not follow. -/
inductive TermOutcome
  | panicked
  | handled (rendered : Bool)
deriving DecidableEq, Repr

/-- `Application::handle_terminal_events`.  `handleEvent e` is the Boolean
verdict of `self.compositor.handle_event(event, &mut cx)` (for resize events
the source first calls `compositor.resize` and then forwards the same event);
`shouldClose` is `self.editor.should_close()`.  Render runs iff
`should_redraw && !self.editor.should_close()`. -/
def handleTerminalEvents (handleEvent : Event → Bool) (shouldClose : Bool)
    (event : Option (Except String Event)) : TermOutcome :=
  match event with
  | some (.ok e) =>
    let shouldRedraw := handleEvent e
    .handled (shouldRedraw && !shouldClose)
  | some (.error _) => .panicked
  | none => .panicked

/-- The two signals subscribed to on non-Windows platforms. -/
inductive Signal
  | sigtstp
  | sigcont
deriving DecidableEq, Repr

/-- Whether `handle_signals` invokes render: `SIGTSTP` saves the cursor,
restores the terminal and yields to the default handler with no render;
`SIGCONT` reclaims the terminal, resizes, loads the cursor and renders. -/
def handleSignalsRenders : Signal → Bool
  | .sigtstp => false
  | .sigcont => true

/-- One job-completion arm (either `jobs.futures` or `jobs.wait_futures`):
`handle_callback` mutates editor and compositor, then `self.render()` runs
unconditionally.  The `Nat` component counts render calls. -/
def jobArm {α : Type} (handleCallback : α → α) (st : α × Nat) : α × Nat :=
  (handleCallback st.1, st.2 + 1)

/-! ## WorkDoneProgressCreate reply resolution (`MethodCall` arm)

After creating the progress entry and starting the spinner, the handler must
reply to the originating server connection: through the first open document
bound to the server id if one exists, else with a `document missing` internal
error if the server registry still knows the id, else the call is logged and
dropped. -/

/-- The editor substate read by reply resolution: the open documents and the
ids of the language servers still known to the registry. -/
structure EditorDocs where
  documents : List Doc
  servers : List Nat
deriving DecidableEq, Repr

/-- `self.editor.documents().find(|doc| doc.language_server().map(|s| s.id() ==
server_id).unwrap_or_default())`. -/
def findDocForServer (e : EditorDocs) (serverId : Nat) : Option Doc :=
  e.documents.find?
    (fun doc => (doc.languageServer.map (fun s => s == serverId)).getD false)

/-- `self.editor.language_servers.get_by_id(server_id)`. -/
def getById (e : EditorDocs) (serverId : Nat) : Option Nat :=
  e.servers.find? (fun s => s == serverId)

/-- The three dispositions of the reply to a `WorkDoneProgressCreate` call. -/
inductive ProgressCreateReply
  | successReply
  | documentMissingError
  | loggedDropped
deriving DecidableEq, Repr

/-- The reply resolution of the `WorkDoneProgressCreate` arm: success `Ok(Null)`
through the document's server handle, else the explicit `document missing`
internal error through the registry handle, else `log::warn!` and no reply. -/
def workDoneProgressCreateReply (e : EditorDocs) (serverId : Nat) :
    ProgressCreateReply :=
  match findDocForServer e serverId with
  | some _ => .successReply
  | none =>
    match getById e serverId with
    | some _ => .documentMissingError
    | none => .loggedDropped

/-- A concrete editor substate: no document is bound to server 9 but the
registry still knows it. -/
def demoEditorDocs : EditorDocs :=
  { documents := [demoDoc], servers := [0, 9] }

/-! ## LSP progress notifications (`Notification::ProgressMessage` arm)

The handler destructures the WorkDone payload into
`(title?, message?, percentage?)`; an `End` without a message ends the token,
stops the spinner if the server is no longer progressing, clears the status
and returns early.  Otherwise the status string is formatted, the tracker is
updated (or the token ended), and the status is surfaced only when
`config.lsp.display_messages` is set. -/

/-- `lsp::WorkDoneProgress`, with the fields the handler reads. -/
inductive WorkDoneProgress
  | begin (title : String) (message : Option String) (percentage : Option Nat)
  | report (message : Option String) (percentage : Option Nat)
  | «end» (message : Option String)
deriving DecidableEq, Repr

/-- The `parts : (Option<&String>, &Option<String>, &Option<u32>)` binding:
`Begin` contributes its title, `Report` and `End` never do, and only `Begin`
and `Report` carry a percentage. -/
def progressParts : WorkDoneProgress →
    Option String × Option String × Option Nat
  | .begin ti ms p => (some ti, ms, p)
  | .report ms p => (none, ms, p)
  | .«end» ms => (none, ms, none)

/-- Modelled from the spec: `helix_lsp::LspProgressMap` (it lives outside
`src/`), the per-server progress-token tracker.  An entry keyed by
`(server_id, token)` holds the most recent WorkDone report, `none` right after
creation; `create` inserts (re-creation overwrites), `update` stores the
latest report, `endProgress` removes the entry, and `isProgressing` says
whether the server still has any entry. -/
structure LspProgressMap where
  entries : List ((Nat × NumberOrString) × Option WorkDoneProgress)
deriving DecidableEq, Repr

/-- Tracker creation for a token (idempotent: an existing entry is replaced). -/
def LspProgressMap.create (m : LspProgressMap) (serverId : Nat)
    (token : NumberOrString) : LspProgressMap :=
  ⟨((serverId, token), none) ::
    m.entries.filter (fun e => decide (e.1 ≠ (serverId, token)))⟩

/-- Tracker update: store the latest WorkDone report for the token. -/
def LspProgressMap.update (m : LspProgressMap) (serverId : Nat)
    (token : NumberOrString) (work : WorkDoneProgress) : LspProgressMap :=
  ⟨((serverId, token), some work) ::
    m.entries.filter (fun e => decide (e.1 ≠ (serverId, token)))⟩

/-- Tracker removal of a token. -/
def LspProgressMap.endProgress (m : LspProgressMap) (serverId : Nat)
    (token : NumberOrString) : LspProgressMap :=
  ⟨m.entries.filter (fun e => decide (e.1 ≠ (serverId, token)))⟩

/-- Whether a server still has tracked progress tokens. -/
def LspProgressMap.isProgressing (m : LspProgressMap) (serverId : Nat) : Bool :=
  m.entries.any (fun e => e.1.1 == serverId)

/-- The per-server busy indicators (`editor_view.spinners_mut()`): the set of
servers whose spinner is currently running. -/
structure Spinners where
  running : List Nat
deriving DecidableEq, Repr

/-- `spinners.get_or_create(server_id).stop()`. -/
def Spinners.stop (sp : Spinners) (serverId : Nat) : Spinners :=
  ⟨sp.running.filter (fun s => decide (s ≠ serverId))⟩

/-- The state mutated by the progress-notification handler: the tracker, the
busy indicators and the editor status text. -/
structure ProgressHandlerState where
  lspProgress : LspProgressMap
  spinners : Spinners
  status : Option String
deriving DecidableEq, Repr

/-- The `Notification::ProgressMessage` arm.  `displayMessages` is
`self.config.lsp.display_messages`.  An `End` without a message ends the
token, stops the spinner when the server no longer progresses, clears the
status and returns early.  Otherwise the status string is computed from
`parts`; `End` (with a message) ends the token with the same spinner check,
anything else updates the tracker; finally the status is written only under
the configuration flag. -/
def handleProgressMessage (displayMessages : Bool) (serverId : Nat)
    (token : NumberOrString) (work : WorkDoneProgress)
    (st : ProgressHandlerState) : ProgressHandlerState :=
  match work with
  | .«end» none =>
    let m := st.lspProgress.endProgress serverId token
    let sp := if !(m.isProgressing serverId) then st.spinners.stop serverId
      else st.spinners
    { lspProgress := m, spinners := sp, status := none }
  | _ =>
    let parts := progressParts work
    let status := progressStatus token parts.1 parts.2.1 parts.2.2
    let st2 : ProgressHandlerState :=
      match work with
      | .«end» _ =>
        let m := st.lspProgress.endProgress serverId token
        let sp := if !(m.isProgressing serverId) then st.spinners.stop serverId
          else st.spinners
        { st with lspProgress := m, spinners := sp }
      | _ => { st with lspProgress := st.lspProgress.update serverId token work }
    if displayMessages then { st2 with status := some status } else st2

/-- A concrete progress state: server 1 tracks one token, its spinner runs,
and a status message is on screen. -/
def demoProgressState : ProgressHandlerState :=
  { lspProgress := ⟨[((1, .str "tok"), none)]⟩,
    spinners := ⟨[1]⟩,
    status := some "[tok] busy" }

/-! ## DAP events (`event_loop`, the `debugger_events` arm)

A payload arriving while `self.editor.debugger` is `None` hits `continue` and
is discarded.  With a debugger, a `stopped` event clears `is_running`, fetches
the thread list best-effort (`.ok()`), but unwraps the stack-trace fetch for
the first thread — a failure there panics.  `Payload::Response` is
`unreachable!` and `Payload::Request` is `todo!`, both panics. -/

/-- `helix_dap::Thread`, reduced to its id. -/
structure DapThread where
  id : Nat
deriving DecidableEq, Repr

/-- `helix_dap::Source`, reduced to its optional path. -/
structure DapSource where
  path : Option String
deriving DecidableEq, Repr

/-- `helix_dap::StackFrame`, reduced to its optional source. -/
structure StackFrame where
  source : Option DapSource
deriving DecidableEq, Repr

/-- `helix_dap::events::Stopped`, with the fields the handler reads. -/
structure StoppedBody where
  threadId : Option Nat
  reason : String
  description : Option String
  text : Option String
  allThreadsStopped : Option Bool
deriving DecidableEq, Repr

/-- The debugger fields mutated by the `stopped` handler. -/
structure DebuggerState where
  isRunning : Bool
  stackPointer : Option StackFrame
deriving DecidableEq, Repr

/-- Outcome of the `stopped` handler: either a panic (a failed `.unwrap()`),
or normal completion with the new debugger state, the composed status line,
and the source path opened for display, if any. -/
inductive StoppedOutcome
  | panicked
  | completed (debugger : DebuggerState) (status : String) (opened : Option String)
deriving DecidableEq, Repr

/-- The debugger state carried by a completed outcome, `none` on a panic. -/
def StoppedOutcome.debuggerResult : StoppedOutcome → Option DebuggerState
  | .panicked => none
  | .completed d _ _ => some d

/-- The `"stopped"` arm.  `threads` is the result of `debugger.threads().await`
(taken `.ok()`, so a failure or an empty list leaves the stack pointer as it
was); `stackTrace t` is `debugger.stack_trace(t).await`, whose failure is
`.unwrap()`ed — a panic.  The status line is composed from the body, and the
top frame's source path, when present, is opened replacing the current view. -/
def handleStopped (threads : Except String (List DapThread))
    (stackTrace : Nat → Except String (List StackFrame))
    (body : StoppedBody) (d : DebuggerState) : StoppedOutcome :=
  let d1 : DebuggerState := { d with isRunning := false }
  let main := threads.toOption.bind (fun ts => ts.head?)
  let fetched : Option DebuggerState :=
    match main with
    | none => some d1
    | some t =>
      match stackTrace t.id with
      | .error _ => none
      | .ok bt => some { d1 with stackPointer := bt.head? }
  match fetched with
  | none => .panicked
  | some d2 =>
    let scope :=
      match body.threadId with
      | some i => "Thread " ++ toString i
      | none => "Target"
    let status0 := scope ++ " stopped because of " ++ body.reason
    let status1 :=
      match body.description with
      | some desc => status0 ++ " " ++ desc
      | none => status0
    let status2 :=
      match body.text with
      | some tx => status1 ++ " " ++ tx
      | none => status1
    let status3 :=
      if body.allThreadsStopped == some true then
        status2 ++ " (all threads stopped)"
      else status2
    let opened :=
      match d2.stackPointer with
      | some fr =>
        match fr.source with
        | some src => src.path
        | none => none
      | none => none
    .completed d2 status3 opened

/-- A concrete stopped-event body. -/
def demoStoppedBody : StoppedBody :=
  { threadId := some 1, reason := "breakpoint", description := none,
    text := none, allThreadsStopped := none }

/-- The DAP events the handler distinguishes, bodies already parsed (the
source `expect`s and `unwrap`s the parse; well-formed bodies are assumed). -/
inductive DapEvent
  | stopped (body : StoppedBody)
  | output (category : Option String) (text : String)
  | initialized
  | other (name : String)
deriving DecidableEq, Repr

/-- `helix_dap::Payload`. -/
inductive Payload
  | event (ev : DapEvent)
  | response
  | request
deriving DecidableEq, Repr

/-- The loop state the DAP arm can touch, plus a render counter and the list
of files opened for display. -/
structure DapLoopState where
  debugger : Option DebuggerState
  status : Option String
  renderCount : Nat
  openedFiles : List String
deriving DecidableEq, Repr

/-- The `debugger_events` arm of the `select!`.  `none` models a panic
(`unreachable!` on `Response`, `todo!` on `Request`, or a failed `.unwrap()`).
With no active debugger the payload is dropped by `continue`; events other
than `stopped`, `output` and `initialized` fall to `_ => {}`. -/
def dapArm (threads : Except String (List DapThread))
    (stackTrace : Nat → Except String (List StackFrame))
    (st : DapLoopState) (payload : Payload) : Option DapLoopState :=
  match st.debugger with
  | none => some st
  | some d =>
    match payload with
    | .event ev =>
      match ev with
      | .stopped body =>
        match handleStopped threads stackTrace body d with
        | .panicked => none
        | .completed d2 status opened =>
          some { debugger := some d2,
                 status := some status,
                 renderCount := st.renderCount + 1,
                 openedFiles :=
                   match opened with
                   | some p => p :: st.openedFiles
                   | none => st.openedFiles }
      | .output cat text =>
        let label :=
          match cat with
          | some c => "Debug (" ++ c ++ "):"
          | none => "Debug:"
        some { st with status := some (label ++ " " ++ text),
                       renderCount := st.renderCount + 1 }
      | .initialized =>
        some { st with status := some "Debugged application started",
                       renderCount := st.renderCount + 1 }
      | .other _ => some st
    | .response => none
    | .request => none

/-! ## Inbound method-call dispatch (`Call::MethodCall` arm)

`MethodCall::parse` lives in `helix-lsp`, outside `src/`; the exhaustive
one-arm `match` in `handle_language_server_message` shows the enum has the
single variant `WorkDoneProgressCreate`, so `parse` is modelled as recognising
exactly the method name `window/workDoneProgress/create` and returning `none`
for every other name — which is the case the source handles by
`error!("Method not found {}", method); return;`. -/

/-- `helix_lsp::MethodCall`: the single parsed method-call variant. -/
inductive MethodCall
  | workDoneProgressCreate (token : NumberOrString)
deriving DecidableEq, Repr

/-- `MethodCall::parse(&method, params)`, modelled as above. -/
def MethodCall.parse (method : String) (token : NumberOrString) :
    Option MethodCall :=
  if method = "window/workDoneProgress/create" then
    some (.workDoneProgressCreate token)
  else none

/-- Disposition of an inbound method call: logged-and-ignored (the `None`
branch), handled with a reply disposition, or a programming-invariant panic
(what an `unreachable!`-style treatment would be — never produced here). -/
inductive MethodCallOutcome
  | methodNotFoundLogged
  | handledCreate (reply : ProgressCreateReply)
  | invariantPanic
deriving DecidableEq, Repr

/-- The `Call::MethodCall` arm: parse the method name; an unrecognized name is
logged (`Method not found`) and the handler returns; a recognised
`WorkDoneProgressCreate` runs the reply resolution. -/
def handleMethodCall (e : EditorDocs) (serverId : Nat) (method : String)
    (token : NumberOrString) : MethodCallOutcome :=
  match MethodCall.parse method token with
  | none => .methodNotFoundLogged
  | some (.workDoneProgressCreate _) =>
    .handledCreate (workDoneProgressCreateReply e serverId)

end Helix

namespace Helix

/-- C1: every iteration selects its source under the fixed biased priority
order terminal input > OS signal > LSP incoming > DAP events > fire-and-forget
jobs > must-await jobs: the dispatched source is ready and of minimal priority
rank among all ready sources, and in particular whenever terminal input is
ready (simultaneously with any protocol or job source or not) the terminal
arm is the one dispatched. -/
theorem biasedSelect_priority_order :
    ∀ r : Readiness,
      (∀ s, biasedSelect r = some s →
        ready r s = true ∧ ∀ t, ready r t = true → priority s ≤ priority t)
      ∧ (r.terminal = true → biasedSelect r = some Source.terminal) := by
  decide

/-- Witness for C1: with terminal input, LSP incoming and a must-await job all
ready at once, the terminal arm is selected. -/
theorem biasedSelect_priority_order_witness :
    biasedSelect ⟨true, false, true, false, false, true⟩ = some Source.terminal :=
  (biasedSelect_priority_order ⟨true, false, true, false, false, true⟩).2 rfl

/-- When the queue is still non-empty and the elapsed time is within the frame
budget, the LSP arm does not render and leaves the loop state untouched. -/
theorem lspArm_skip (s : LspArmState) (t : Nat) (h : t - s.lastRender ≤ deadline) :
    lspArm s false t = s := by
  simp only [lspArm, Bool.false_or, decide_eq_true_eq, ite_eq_right_iff]
  intro hlt
  exact absurd hlt (Nat.not_lt.mpr h)

/-- Render-time invariant preserved by every mid-burst (queue non-empty) step:
the most recent render time never exceeds `lastRender`, and consecutive
recorded render times are more than `deadline` apart. -/
theorem lspArm_false_invariant (s : LspArmState) (t : Nat)
    (hhead : ∀ h ∈ s.renders.head?, h ≤ s.lastRender)
    (hchain : List.Chain' (fun a b => deadline < a - b) s.renders) :
    (∀ h ∈ (lspArm s false t).renders.head?, h ≤ (lspArm s false t).lastRender)
      ∧ List.Chain' (fun a b => deadline < a - b) (lspArm s false t).renders := by
  by_cases hlt : deadline < t - s.lastRender
  · have harm : lspArm s false t = ⟨t, t :: s.renders⟩ := by
      simp [lspArm, hlt]
    rw [harm]
    refine ⟨by simp, List.chain'_cons'.mpr ⟨?_, hchain⟩⟩
    intro b hb
    have hble : b ≤ s.lastRender := hhead b hb
    exact lt_of_lt_of_le hlt (Nat.sub_le_sub_left hble t)
  · have harm : lspArm s false t = s := by
      simp [lspArm, hlt]
    rw [harm]
    exact ⟨hhead, hchain⟩

/-- The render-time invariant holds of the state reached by any run over
mid-burst observations. -/
theorem lspArmRun_mid_invariant (times : List Nat) (s : LspArmState)
    (hhead : ∀ h ∈ s.renders.head?, h ≤ s.lastRender)
    (hchain : List.Chain' (fun a b => deadline < a - b) s.renders) :
    List.Chain' (fun a b => deadline < a - b)
      (lspArmRun s (burstMidEvents times)).renders := by
  induction times generalizing s with
  | nil => exact hchain
  | cons t ts ih =>
    have hstep := lspArm_false_invariant s t hhead hchain
    exact ih (lspArm s false t) hstep.1 hstep.2

/-- C2: after handling an LSP message, render fires iff the incoming queue has
drained or more than the 1/60 s frame budget elapsed since the last render
(first conjunct); a burst of queued messages all handled within the budget
triggers exactly one render, at the drain (second conjunct); and while a
longer burst has not yet drained, successive renders are always more than one
budget interval apart (third conjunct). -/
theorem lsp_render_throttled :
    (∀ (s : LspArmState) (e : Bool) (t : Nat),
        (lspArm s e t).renders.length = s.renders.length + 1
          ↔ (e = true ∨ deadline < t - s.lastRender))
    ∧ (∀ (s : LspArmState) (times : List Nat) (h : times ≠ []),
        (∀ t ∈ times.dropLast, t - s.lastRender ≤ deadline) →
        (lspArmRun s (burstEvents times)).renders = times.getLast h :: s.renders)
    ∧ (∀ (last0 : Nat) (times : List Nat),
        List.Chain' (fun a b => deadline < a - b)
          (lspArmRun ⟨last0, []⟩ (burstMidEvents times)).renders) := by
  refine ⟨?_, ?_, ?_⟩
  · intro s e t
    by_cases hc : e = true ∨ deadline < t - s.lastRender
    · have : (e || decide (deadline < t - s.lastRender)) = true := by
        rcases hc with hc | hc
        · simp [hc]
        · simp [hc]
      simp [lspArm, this, hc]
    · have he : e = false := by
        cases e
        · rfl
        · exact absurd (Or.inl rfl) hc
      have hlt : ¬ deadline < t - s.lastRender := fun hx => hc (Or.inr hx)
      subst he
      rw [lspArm_skip s t (Nat.not_lt.mp hlt)]
      constructor
      · intro hlen
        exact absurd hlen (Nat.ne_of_lt (Nat.lt_succ_self _))
      · intro hor
        exact absurd hor hc
  · intro s times
    induction times generalizing s with
    | nil => intro h; exact absurd rfl h
    | cons t ts ih =>
      intro _ hfast
      cases ts with
      | nil =>
        simp [burstEvents, lspArmRun, lspArm]
      | cons t2 ts2 =>
        have hts : (t2 :: ts2) ≠ [] := by simp
        have hstep : lspArm s false t = s := by
          refine lspArm_skip s t (hfast t ?_)
          simp [List.dropLast_cons_of_ne_nil hts]
        have hburst : burstEvents (t :: t2 :: ts2)
            = (false, t) :: burstEvents (t2 :: ts2) := rfl
        rw [hburst]
        show (lspArmRun (lspArm s false t) (burstEvents (t2 :: ts2))).renders = _
        rw [hstep]
        rw [ih s hts (fun u hu => hfast u (by
          rw [List.dropLast_cons_of_ne_nil hts]
          exact List.mem_cons_of_mem t hu))]
        rw [List.getLast_cons hts]
  · intro last0 times
    exact lspArmRun_mid_invariant times ⟨last0, []⟩ (by simp) (by simp)

/-- Witness for C2: from `last_render = 0`, a three-message burst handled at
5 ms, 10 ms and 12 ms (all within the 16.6 ms budget) renders exactly once,
at the drain. -/
theorem lsp_render_throttled_witness :
    (lspArmRun ⟨0, []⟩ (burstEvents [5000000, 10000000, 12000000])).renders
      = [12000000] :=
  lsp_render_throttled.2.1 ⟨0, []⟩ [5000000, 10000000, 12000000]
    (by decide) (by decide)

/-- C9: the progress status string is computed by exactly one of eight formats
selected by which of title, message and percentage are present: the eight
defining equations show each present field appearing verbatim in the output
(the existential conjuncts), no placeholder standing in for an absent field,
and the all-absent case yielding the bare token label. -/
theorem progressStatus_eight_formats :
    (∀ (tok : NumberOrString) (ti ms : String) (p : Nat),
        progressStatus tok (some ti) (some ms) (some p)
          = "[" ++ tokenDisplay tok ++ "] " ++ toString p ++ "% " ++ ti ++ " - " ++ ms
      ∧ progressStatus tok (some ti) none (some p)
          = "[" ++ tokenDisplay tok ++ "] " ++ toString p ++ "% " ++ ti
      ∧ progressStatus tok (some ti) (some ms) none
          = "[" ++ tokenDisplay tok ++ "] " ++ ti ++ " - " ++ ms
      ∧ progressStatus tok none (some ms) (some p)
          = "[" ++ tokenDisplay tok ++ "] " ++ toString p ++ "% " ++ ms
      ∧ progressStatus tok (some ti) none none = "[" ++ tokenDisplay tok ++ "] " ++ ti
      ∧ progressStatus tok none (some ms) none = "[" ++ tokenDisplay tok ++ "] " ++ ms
      ∧ progressStatus tok none none (some p)
          = "[" ++ tokenDisplay tok ++ "] " ++ toString p ++ "%"
      ∧ progressStatus tok none none none = "[" ++ tokenDisplay tok ++ "]")
    ∧ (∀ (tok : NumberOrString) (title message : Option String)
          (percentage : Option Nat),
        (∀ ti, title = some ti →
          ∃ a b, progressStatus tok title message percentage = a ++ ti ++ b)
        ∧ (∀ ms, message = some ms →
          ∃ a b, progressStatus tok title message percentage = a ++ ms ++ b)
        ∧ (∀ p, percentage = some p →
          ∃ a b, progressStatus tok title message percentage
            = a ++ toString p ++ b)) := by
  constructor
  · intro tok ti ms p
    exact ⟨rfl, rfl, rfl, rfl, rfl, rfl, rfl, rfl⟩
  · intro tok title message percentage
    rcases title with _ | ti <;> rcases message with _ | ms <;>
      rcases percentage with _ | p
    · exact ⟨fun x hx => absurd hx (by simp), fun x hx => absurd hx (by simp),
        fun x hx => absurd hx (by simp)⟩
    · refine ⟨fun x hx => absurd hx (by simp), fun x hx => absurd hx (by simp),
        fun x hx => ?_⟩
      injection hx with hx
      subst hx
      exact ⟨"[" ++ tokenDisplay tok ++ "] ", "%",
        by simp [progressStatus, String.append_assoc]⟩
    · refine ⟨fun x hx => absurd hx (by simp), fun x hx => ?_,
        fun x hx => absurd hx (by simp)⟩
      injection hx with hx
      subst hx
      exact ⟨"[" ++ tokenDisplay tok ++ "] ", "",
        by simp [progressStatus, String.append_assoc, String.append_empty]⟩
    · refine ⟨fun x hx => absurd hx (by simp), fun x hx => ?_, fun x hx => ?_⟩
      · injection hx with hx
        subst hx
        exact ⟨"[" ++ tokenDisplay tok ++ "] " ++ toString p ++ "% ", "",
          by simp [progressStatus, String.append_assoc, String.append_empty]⟩
      · injection hx with hx
        subst hx
        exact ⟨"[" ++ tokenDisplay tok ++ "] ", "% " ++ ms,
          by simp [progressStatus, String.append_assoc]⟩
    · refine ⟨fun x hx => ?_, fun x hx => absurd hx (by simp),
        fun x hx => absurd hx (by simp)⟩
      injection hx with hx
      subst hx
      exact ⟨"[" ++ tokenDisplay tok ++ "] ", "",
        by simp [progressStatus, String.append_assoc, String.append_empty]⟩
    · refine ⟨fun x hx => ?_, fun x hx => absurd hx (by simp), fun x hx => ?_⟩
      · injection hx with hx
        subst hx
        exact ⟨"[" ++ tokenDisplay tok ++ "] " ++ toString p ++ "% ", "",
          by simp [progressStatus, String.append_assoc, String.append_empty]⟩
      · injection hx with hx
        subst hx
        exact ⟨"[" ++ tokenDisplay tok ++ "] ", "% " ++ ti,
          by simp [progressStatus, String.append_assoc]⟩
    · refine ⟨fun x hx => ?_, fun x hx => ?_, fun x hx => absurd hx (by simp)⟩
      · injection hx with hx
        subst hx
        exact ⟨"[" ++ tokenDisplay tok ++ "] ", " - " ++ ms,
          by simp [progressStatus, String.append_assoc]⟩
      · injection hx with hx
        subst hx
        exact ⟨"[" ++ tokenDisplay tok ++ "] " ++ ti ++ " - ", "",
          by simp [progressStatus, String.append_assoc, String.append_empty]⟩
    · refine ⟨fun x hx => ?_, fun x hx => ?_, fun x hx => ?_⟩
      · injection hx with hx
        subst hx
        exact ⟨"[" ++ tokenDisplay tok ++ "] " ++ toString p ++ "% ", " - " ++ ms,
          by simp [progressStatus, String.append_assoc]⟩
      · injection hx with hx
        subst hx
        exact ⟨"[" ++ tokenDisplay tok ++ "] " ++ toString p ++ "% " ++ ti ++ " - ",
          "", by simp [progressStatus, String.append_assoc, String.append_empty]⟩
      · injection hx with hx
        subst hx
        exact ⟨"[" ++ tokenDisplay tok ++ "] ", "% " ++ ti ++ " - " ++ ms,
          by simp [progressStatus, String.append_assoc]⟩

/-- Witness for C9: a concrete report-phase status with message and percentage
but no title contains both fields. -/
theorem progressStatus_eight_formats_witness :
    ∃ a b, progressStatus (NumberOrString.str "rustAnalyzer/Indexing") none
        (some "3/7 crates") (some 42) = a ++ "3/7 crates" ++ b :=
  (progressStatus_eight_formats.2 (NumberOrString.str "rustAnalyzer/Indexing")
      none (some "3/7 crates") (some 42)).2.1 "3/7 crates" rfl

/-- The translated batch keeps exactly the diagnostics whose two positions
both translate, each one translated independently of the rest. -/
theorem publishDiagnostics_eq_filter_map
    (f : LspPosition → Option Nat) (ds : List LspDiagnostic) :
    publishDiagnostics f ds
      = (ds.filter
          (fun d => (f d.range.start).isSome && (f d.range.endPos).isSome)).map
          (fun d => { range := { start := (f d.range.start).getD 0,
                                 endPos := (f d.range.endPos).getD 0 },
                      line := d.range.start.line,
                      message := d.message,
                      severity := d.severity.map severityFromLsp }) := by
  induction ds with
  | nil => rfl
  | cons d ds ih =>
    unfold publishDiagnostics at ih ⊢
    rw [List.filterMap_cons, List.filter_cons]
    cases hs : f d.range.start with
    | none => simp [translateDiagnostic, hs, ih]
    | some s =>
      cases he : f d.range.endPos with
      | none => simp [translateDiagnostic, hs, he, ih]
      | some e2 => simp [translateDiagnostic, hs, he, ih]

/-- C3: each diagnostic of a PublishDiagnostics batch for an open document is
translated independently — one with an untranslatable start or end position is
dropped, every other one is applied to the document (first conjunct) — and on
the concrete five-diagnostic batch with one out-of-bounds entry the four valid
diagnostics are applied and the invalid one dropped (second conjunct). -/
theorem publishDiagnostics_partial_application :
    (∀ (f : LspPosition → Option Nat) (doc : Doc) (ds : List LspDiagnostic),
      (handlePublishDiagnostics f doc ds).diagnostics
        = (ds.filter
            (fun d => (f d.range.start).isSome && (f d.range.endPos).isSome)).map
            (fun d => { range := { start := (f d.range.start).getD 0,
                                   endPos := (f d.range.endPos).getD 0 },
                        line := d.range.start.line,
                        message := d.message,
                        severity := d.severity.map severityFromLsp }))
    ∧ (handlePublishDiagnostics demoLspPosToPos demoDoc demoBatch).diagnostics
        = [ { range := { start := 1, endPos := 4 }, line := 0, message := "d1",
              severity := some .error },
            { range := { start := 10, endPos := 12 }, line := 1, message := "d2",
              severity := some .warning },
            { range := { start := 22, endPos := 25 }, line := 2, message := "d3",
              severity := none },
            { range := { start := 30, endPos := 40 }, line := 3, message := "d4",
              severity := some .hint } ] := by
  constructor
  · intro f doc ds
    simp [handlePublishDiagnostics, setDiagnostics,
      publishDiagnostics_eq_filter_map]
  · rfl

/-- C4 counterexample: a terminal key event for which the compositor reports
no redraw needed is dispatched and handled without any render call, and a
SIGTSTP signal event is handled without any render call — refuting that
render is invoked unconditionally after every terminal-input and signal
event. -/
theorem terminal_render_not_unconditional :
    handleTerminalEvents (fun _ => false) false (some (Except.ok Event.key))
        = TermOutcome.handled false
    ∧ handleSignalsRenders Signal.sigtstp = false :=
  ⟨rfl, rfl⟩

/-- C4 amended: render is invoked unconditionally after every job-completion
event; after a signal it is invoked for SIGCONT but not for SIGTSTP; and after
a terminal-input event it is invoked exactly when the compositor reports a
redraw is needed and the editor is not closing. -/
theorem render_policy_amended :
    (∀ (handleEvent : Event → Bool) (shouldClose : Bool) (e : Event),
        handleTerminalEvents handleEvent shouldClose (some (Except.ok e))
          = TermOutcome.handled (handleEvent e && !shouldClose))
    ∧ handleSignalsRenders Signal.sigtstp = false
    ∧ handleSignalsRenders Signal.sigcont = true
    ∧ (∀ (α : Type) (handleCallback : α → α) (st : α × Nat),
        (jobArm handleCallback st).2 = st.2 + 1) :=
  ⟨fun _ _ _ => rfl, rfl, rfl, fun _ _ _ => rfl⟩

/-- C5: the WorkDoneProgressCreate reply is resolved in three tiers: the
document search succeeds exactly when some open document is bound to the
originating server id (first conjunct); then a success reply goes through that
document's server handle (second conjunct); with no such document but the
server still known, the explicit `document missing` error reply is sent (third
conjunct); otherwise the call is logged and dropped with no reply (fourth
conjunct). -/
theorem workDoneProgressCreate_reply_tiers :
    ∀ (e : EditorDocs) (serverId : Nat),
      ((∃ doc ∈ e.documents, doc.languageServer = some serverId) ↔
        (findDocForServer e serverId).isSome = true)
      ∧ ((findDocForServer e serverId).isSome = true →
          workDoneProgressCreateReply e serverId
            = ProgressCreateReply.successReply)
      ∧ (findDocForServer e serverId = none →
          (getById e serverId).isSome = true →
          workDoneProgressCreateReply e serverId
            = ProgressCreateReply.documentMissingError)
      ∧ (findDocForServer e serverId = none → getById e serverId = none →
          workDoneProgressCreateReply e serverId
            = ProgressCreateReply.loggedDropped) := by
  intro e serverId
  refine ⟨?_, ?_, ?_, ?_⟩
  · rw [findDocForServer, List.find?_isSome]
    constructor
    · rintro ⟨doc, hmem, hls⟩
      exact ⟨doc, hmem, by simp [hls]⟩
    · rintro ⟨doc, hmem, hp⟩
      refine ⟨doc, hmem, ?_⟩
      cases hls : doc.languageServer with
      | none => rw [hls] at hp; simp at hp
      | some s =>
        rw [hls] at hp
        simp at hp
        rw [hp]
  · intro h
    cases hd : findDocForServer e serverId with
    | none => rw [hd] at h; simp at h
    | some doc => simp [workDoneProgressCreateReply, hd]
  · intro hnone hsome
    cases hg : getById e serverId with
    | none => rw [hg] at hsome; simp at hsome
    | some s => simp [workDoneProgressCreateReply, hnone, hg]
  · intro hnone hgnone
    simp [workDoneProgressCreateReply, hnone, hgnone]

/-- Witness for C5: server 9 has no bound document but is still known to the
registry, so the `document missing` error reply is sent. -/
theorem workDoneProgressCreate_reply_tiers_witness :
    workDoneProgressCreateReply demoEditorDocs 9
      = ProgressCreateReply.documentMissingError :=
  (workDoneProgressCreate_reply_tiers demoEditorDocs 9).2.2.1 rfl rfl

/-- C6 counterexample: with the display flag unset and a status message on
screen, an `End` progress notification without a message still clears the
editor status text — refuting that handling a progress notification with the
flag unset leaves the status text unchanged. -/
theorem progress_status_cleared_without_flag :
    (handleProgressMessage false 1 (NumberOrString.str "tok")
        (WorkDoneProgress.«end» none) demoProgressState).status = none
    ∧ demoProgressState.status = some "[tok] busy" :=
  ⟨rfl, rfl⟩

/-- C6 amended: tracker and spinner state are maintained identically whether
or not the display flag is set (first two conjuncts); with the flag unset the
status text is untouched for every notification except an `End` without a
message (third conjunct); with the flag set the computed status string is
written (fourth conjunct); and an `End` without a message always clears the
status text, regardless of the flag (fifth conjunct). -/
theorem progress_display_flag_amended :
    ∀ (flag : Bool) (serverId : Nat) (token : NumberOrString)
      (work : WorkDoneProgress) (st : ProgressHandlerState),
      ((handleProgressMessage flag serverId token work st).lspProgress
          = (handleProgressMessage false serverId token work st).lspProgress)
      ∧ ((handleProgressMessage flag serverId token work st).spinners
          = (handleProgressMessage false serverId token work st).spinners)
      ∧ (work ≠ WorkDoneProgress.«end» none →
          (handleProgressMessage false serverId token work st).status = st.status)
      ∧ (work ≠ WorkDoneProgress.«end» none →
          (handleProgressMessage true serverId token work st).status
            = some (progressStatus token (progressParts work).1
                (progressParts work).2.1 (progressParts work).2.2))
      ∧ ((handleProgressMessage flag serverId token
            (WorkDoneProgress.«end» none) st).status = none) := by
  intro flag serverId token work st
  refine ⟨?_, ?_, ?_, ?_, ?_⟩
  · cases work with
    | begin ti ms p => cases flag <;> rfl
    | report ms p => cases flag <;> rfl
    | «end» ms => cases ms <;> cases flag <;> rfl
  · cases work with
    | begin ti ms p => cases flag <;> rfl
    | report ms p => cases flag <;> rfl
    | «end» ms => cases ms <;> cases flag <;> rfl
  · intro hne
    cases work with
    | begin ti ms p => rfl
    | report ms p => rfl
    | «end» ms =>
      cases ms with
      | none => exact absurd rfl hne
      | some m => rfl
  · intro hne
    cases work with
    | begin ti ms p => rfl
    | report ms p => rfl
    | «end» ms =>
      cases ms with
      | none => exact absurd rfl hne
      | some m => rfl
  · cases flag <;> rfl

/-- Witness for C6: a report-phase notification with the flag unset leaves the
demo status text unchanged. -/
theorem progress_display_flag_amended_witness :
    (handleProgressMessage false 1 (NumberOrString.str "tok")
        (WorkDoneProgress.report (some "indexing") (some 10))
        demoProgressState).status
      = demoProgressState.status :=
  (progress_display_flag_amended false 1 (NumberOrString.str "tok")
      (WorkDoneProgress.report (some "indexing") (some 10))
      demoProgressState).2.2.1 (by decide)

/-- C7 counterexample: with the thread-list fetch succeeding (one thread) and
the stack-trace fetch failing, the `stopped` handler panics on the
`.unwrap()` — refuting that a failure of either fetch is not propagated and
that the handler completes normally whether or not the fetches succeed. -/
theorem stopped_stack_trace_unwrap_panics :
    handleStopped (Except.ok [⟨1⟩])
        (fun _ => Except.error "connection closed")
        demoStoppedBody ⟨true, none⟩
      = StoppedOutcome.panicked := rfl

/-- C7 amended: on `stopped`, `is_running` is always cleared; the thread-list
fetch alone is best-effort — its failure, or an empty thread list, leaves the
stack pointer unchanged and the handler completes normally (first two
conjuncts) — while the stack-trace fetch for the first thread is `.unwrap()`ed,
so its failure panics instead of completing (third conjunct); when it
succeeds, the stack pointer becomes the top returned frame (fourth
conjunct). -/
theorem handleStopped_amended :
    (∀ (err : String) (stackTrace : Nat → Except String (List StackFrame))
        (body : StoppedBody) (d : DebuggerState),
        (handleStopped (Except.error err) stackTrace body d).debuggerResult
          = some ⟨false, d.stackPointer⟩)
    ∧ (∀ (stackTrace : Nat → Except String (List StackFrame))
        (body : StoppedBody) (d : DebuggerState),
        (handleStopped (Except.ok []) stackTrace body d).debuggerResult
          = some ⟨false, d.stackPointer⟩)
    ∧ (∀ (t : DapThread) (ts : List DapThread)
        (stackTrace : Nat → Except String (List StackFrame))
        (body : StoppedBody) (d : DebuggerState) (e : String),
        stackTrace t.id = Except.error e →
        handleStopped (Except.ok (t :: ts)) stackTrace body d
          = StoppedOutcome.panicked)
    ∧ (∀ (t : DapThread) (ts : List DapThread)
        (stackTrace : Nat → Except String (List StackFrame))
        (body : StoppedBody) (d : DebuggerState) (bt : List StackFrame),
        stackTrace t.id = Except.ok bt →
        (handleStopped (Except.ok (t :: ts)) stackTrace body d).debuggerResult
          = some ⟨false, bt.head?⟩) := by
  refine ⟨?_, ?_, ?_, ?_⟩
  · intro err stackTrace body d
    rfl
  · intro stackTrace body d
    rfl
  · intro t ts stackTrace body d e h
    simp [handleStopped, Except.toOption, h]
  · intro t ts stackTrace body d bt h
    simp [handleStopped, Except.toOption, h, StoppedOutcome.debuggerResult]

/-- Witness for C7 amended: a successful stack-trace fetch completes with the
stack pointer set to the top frame. -/
theorem handleStopped_amended_witness :
    (handleStopped (Except.ok [⟨1⟩])
        (fun _ => Except.ok [⟨some ⟨some "/tmp/main.rs"⟩⟩])
        demoStoppedBody ⟨true, none⟩).debuggerResult
      = some ⟨false, some ⟨some ⟨some "/tmp/main.rs"⟩⟩⟩ :=
  handleStopped_amended.2.2.2 ⟨1⟩ []
    (fun _ => Except.ok [⟨some ⟨some "/tmp/main.rs"⟩⟩])
    demoStoppedBody ⟨true, none⟩ [⟨some ⟨some "/tmp/main.rs"⟩⟩] rfl

/-- C8 counterexample: an inbound method call with an unrecognized name is
logged (`Method not found`) and ignored, which is a logged-and-continue
disposition and not a programming-invariant failure — refuting the claim that
it is treated as an unrecoverable protocol violation. -/
theorem unknown_method_logged_not_panic :
    handleMethodCall demoEditorDocs 0 "textDocument/definition"
        (NumberOrString.number 1)
      = MethodCallOutcome.methodNotFoundLogged
    ∧ MethodCallOutcome.methodNotFoundLogged ≠ MethodCallOutcome.invariantPanic :=
  ⟨rfl, by decide⟩

/-- C8 amended: every inbound method call whose name is not
`window/workDoneProgress/create` is a logged-and-continue case: the parse
yields nothing, `Method not found` is logged and the handler returns with no
reply and no panic (the `unreachable!` programming-invariant failure in this
handler guards the `Call::Invalid` shape, not unknown method names). -/
theorem handleMethodCall_unknown_amended :
    ∀ (e : EditorDocs) (serverId : Nat) (method : String)
      (token : NumberOrString),
      method ≠ "window/workDoneProgress/create" →
      handleMethodCall e serverId method token
        = MethodCallOutcome.methodNotFoundLogged := by
  intro e serverId method token h
  simp [handleMethodCall, MethodCall.parse, h]

/-- Witness for C8 amended: a concrete unknown method name is logged and
ignored. -/
theorem handleMethodCall_unknown_amended_witness :
    handleMethodCall demoEditorDocs 3 "workspace/configuration"
        (NumberOrString.number 0)
      = MethodCallOutcome.methodNotFoundLogged :=
  handleMethodCall_unknown_amended demoEditorDocs 3 "workspace/configuration"
    (NumberOrString.number 0) (by decide)

/-- C10: a DAP payload received while the editor has no active debugger is
silently discarded by the `continue`: debugger, status text, render count and
opened files are all left exactly as they were, and no panic can occur. -/
theorem dapArm_no_debugger_discards :
    ∀ (threads : Except String (List DapThread))
      (stackTrace : Nat → Except String (List StackFrame))
      (st : DapLoopState) (payload : Payload),
      st.debugger = none →
      dapArm threads stackTrace st payload = some st := by
  intro threads stackTrace st payload h
  simp [dapArm, h]

/-- Witness for C10: a `stopped` payload arriving with no debugger leaves the
concrete loop state untouched. -/
theorem dapArm_no_debugger_discards_witness :
    dapArm (Except.error "no adapter") (fun _ => Except.error "no adapter")
        ⟨none, some "hello", 3, ["/tmp/a.rs"]⟩
        (Payload.event (DapEvent.stopped demoStoppedBody))
      = some ⟨none, some "hello", 3, ["/tmp/a.rs"]⟩ :=
  dapArm_no_debugger_discards (Except.error "no adapter")
    (fun _ => Except.error "no adapter")
    ⟨none, some "hello", 3, ["/tmp/a.rs"]⟩
    (Payload.event (DapEvent.stopped demoStoppedBody)) rfl

end Helix
